import Mathlib

/-!
# Verification of the cloth_backend order/cart/inventory core

Shallow embedding of the data model and the controller operations of the
cloth_backend repository (Express + Mongoose e-commerce backend).  The four
entities touched by order placement (Product, Inventory, Cart line, Order)
are records over `Nat` identifiers and `Int` quantities/prices (JS numbers at
the API boundary may be negative, so they are embedded as integers and the
non-negativity checks of the code are kept explicit).  The whole persistent
state is a `Store`; each controller function becomes a pure function from a
store and its request inputs to a result value paired with the new store.
-/

/-- A catalog product (src/models/products.js): identity, name, price,
category; the other descriptive fields are opaque to the core. -/
structure Product where
  id : Nat
  name : String
  price : Int
  category : String
  deriving Repr, DecidableEq

/-- An inventory record (src/models/inventory.js): one per product,
`quantity` is a `Number` with schema constraint `min: 0`. -/
structure InventoryRec where
  productId : Nat
  quantity : Int
  deriving Repr, DecidableEq

/-- A cart line (src/models/cart.js): per-user, per-product quantity.  The
schema does not constrain `quantity`, so it is a bare `Int` here. -/
structure CartLine where
  id : Nat
  userId : Nat
  productId : Nat
  quantity : Int
  deriving Repr, DecidableEq

/-- An order record (src/models/orders.js): userId, productId, quantity,
totalPrice, status (one of the five enumerated strings). -/
structure OrderRec where
  id : Nat
  userId : Nat
  productId : Nat
  quantity : Int
  totalPrice : Int
  status : String
  deriving Repr, DecidableEq

/-- The persistent state: the four Mongo collections, plus fresh-id counters
standing in for Mongo ObjectId generation. -/
structure Store where
  products : List Product
  inventories : List InventoryRec
  carts : List CartLine
  orders : List OrderRec
  nextCartId : Nat
  nextOrderId : Nat
  deriving Repr, DecidableEq

/-- Update the first element satisfying `p` (Mongoose `findOne` + `save`, or
`findOneAndUpdate`: the write goes to the single matched document). -/
def updateFirst (p : α → Bool) (f : α → α) : List α → List α
  | [] => []
  | x :: xs => if p x then f x :: xs else x :: updateFirst p f xs

/-- Embedding of `Product.findById`. -/
def findProduct (s : Store) (pid : Nat) : Option Product :=
  s.products.find? (fun p => p.id == pid)

/-- Embedding of `Inventory.findOne \x7b productId \x7d`. -/
def findInventory (s : Store) (pid : Nat) : Option InventoryRec :=
  s.inventories.find? (fun i => i.productId == pid)

/-- Embedding of `Cart.find \x7b userId \x7d` (insertion order, as Mongo returns without a sort). -/
def cartLinesOf (s : Store) (u : Nat) : List CartLine :=
  s.carts.filter (fun l => l.userId == u)

/-! ## Order placement (src: orders controller, `createOrder`) -/

/-- Outcome of `createOrder` (POST /orders). -/
inductive PlaceOrderResult where
  /-- Maps to 400 "Cart is empty. Add items to cart before creating an order." -/
  | emptyCart
  /-- Maps to 400 "Insufficient inventory for product ..., Available: a, Requested: r" -/
  | insufficientStock (productId : Nat) (available requested : Int)
  /-- Maps to 201 with the created orders -/
  | success (orders : List OrderRec)
  deriving Repr, DecidableEq

/-- The per-line loop of `createOrder`: for each cart item, skip if the
populated product is gone; otherwise look up inventory, fail the whole call
on insufficiency (leaving the store as mutated so far — the code has no
rollback), else create the order and decrement the found inventory document.
After the loop the cart is cleared unconditionally. -/
def processCartItems (u : Nat) : Store → List CartLine → List OrderRec →
    PlaceOrderResult × Store
  | s, [], acc =>
      -- Clear cart after order creation: `Cart.deleteMany \x7b userId \x7d`
      (.success acc.reverse,
       { s with carts := s.carts.filter (fun l => l.userId != u) })
  | s, item :: rest, acc =>
      match findProduct s item.productId with
      | none => processCartItems u s rest acc -- skip if product was deleted
      | some p =>
        match findInventory s p.id with
        | none => (.insufficientStock p.id 0 item.quantity, s)
        | some inv =>
          if inv.quantity < item.quantity then
            (.insufficientStock p.id inv.quantity item.quantity, s)
          else
            let totalPrice := p.price * item.quantity
            let order : OrderRec :=
              { id := s.nextOrderId, userId := u, productId := p.id,
                quantity := item.quantity, totalPrice := totalPrice,
                status := "pending" }
            let s' : Store :=
              { s with
                orders := s.orders ++ [order],
                nextOrderId := s.nextOrderId + 1,
                inventories := updateFirst (fun i => i.productId == p.id)
                  (fun i => { i with quantity := i.quantity - item.quantity })
                  s.inventories }
            processCartItems u s' rest (order :: acc)

/-- Controller `createOrder` (POST /orders): place an order from the user's cart. -/
def createOrder (s : Store) (u : Nat) : PlaceOrderResult × Store :=
  let cartItems := cartLinesOf s u
  if cartItems.isEmpty then
    (.emptyCart, s)
  else
    processCartItems u s cartItems []

/-! ## Cart controller (src/controllers/cartController.js) -/

/-- Outcome of a cart mutation. -/
inductive CartOpResult where
  /-- Maps to 400, a validation failure -/
  | badRequest
  /-- Maps to 404, product or cart item not found -/
  | notFound
  /-- Maps to 200 or 201 with the affected line -/
  | ok
  deriving Repr, DecidableEq

/-- Controller `addToCart` (POST /cart): reject missing/zero quantity (`!quantity`),
reject `quantity < 1`, require the product to exist, then merge into the
existing `(userId, productId)` line or create a new line. -/
def addToCart (s : Store) (u : Nat) (pid : Nat) (q : Int) :
    CartOpResult × Store :=
  if q == 0 then (.badRequest, s)            -- `!quantity`
  else if q < 1 then (.badRequest, s)        -- "Quantity must be at least 1"
  else
    match findProduct s pid with
    | none => (.notFound, s)                  -- "Product not found"
    | some _ =>
      match s.carts.find? (fun l => l.userId == u && l.productId == pid) with
      | some _ =>
          let carts' := updateFirst (fun l => l.userId == u && l.productId == pid)
            (fun l => { l with quantity := l.quantity + q }) s.carts
          (.ok, { s with carts := carts' })
      | none =>
          (.ok, { s with
            carts := s.carts ++
              [{ id := s.nextCartId, userId := u, productId := pid,
                 quantity := q }],
            nextCartId := s.nextCartId + 1 })

/-- Controller `updateCartItem` (PUT /cart/:itemId): reject `quantity < 1`, find the
line by id and owner, overwrite its quantity. -/
def updateCartItem (s : Store) (u : Nat) (itemId : Nat) (q : Int) :
    CartOpResult × Store :=
  if q < 1 then (.badRequest, s)             -- "Quantity must be at least 1"
  else
    match s.carts.find? (fun l => l.id == itemId && l.userId == u) with
    | none => (.notFound, s)                  -- "Cart item not found"
    | some _ =>
        let carts' := updateFirst (fun l => l.id == itemId && l.userId == u)
          (fun l => { l with quantity := q }) s.carts
        (.ok, { s with carts := carts' })

/-- Controller `removeFromCart` (DELETE /cart/:itemId): `Cart.findOneAndDelete
\x7b _id, userId \x7d`. -/
def removeFromCart (s : Store) (u : Nat) (itemId : Nat) :
    CartOpResult × Store :=
  match s.carts.find? (fun l => l.id == itemId && l.userId == u) with
  | none => (.notFound, s)
  | some l => (.ok, { s with carts := s.carts.erase l })

/-- Controller `clearCart` (DELETE /cart): `Cart.deleteMany \x7b userId \x7d`, responding
with `deletedCount`. -/
def clearCart (s : Store) (u : Nat) : Nat × Store :=
  ((s.carts.filter (fun l => l.userId == u)).length,
   { s with carts := s.carts.filter (fun l => l.userId != u) })

/-! ## Order status update (src: orders controller, `updateOrderStatus`) -/

/-- Outcome of `updateOrderStatus` (PATCH /orders/:id/status). -/
inductive UpdateStatusResult where
  /-- Maps to 400 "Invalid status. Must be one of: ..." -/
  | invalidStatus
  /-- Maps to 404 "Order not found" -/
  | notFound
  /-- Maps to 200 with the updated order -/
  | ok (o : OrderRec)
  deriving Repr, DecidableEq

/-- The five admissible order statuses (`validStatuses` in the controller,
matching the Mongoose enum of the order schema). -/
def validStatuses : List String :=
  ["pending", "processing", "shipped", "delivered", "cancelled"]

/-- Controller `updateOrderStatus` (PATCH /orders/:id/status): reject a status outside
the enumeration (also the empty string, which is falsy in `!status` — it is
not in the list either), else `findByIdAndUpdate` the order's status. -/
def updateOrderStatus (s : Store) (oid : Nat) (st : String) :
    UpdateStatusResult × Store :=
  if !(validStatuses.contains st) then (.invalidStatus, s)
  else
    match s.orders.find? (fun o => o.id == oid) with
    | none => (.notFound, s)
    | some o =>
        let o' := { o with status := st }
        let orders' := updateFirst (fun x => x.id == oid)
          (fun x => { x with status := st }) s.orders
        (.ok o', { s with orders := orders' })

/-! ## Inventory controller (src: inventory controller) -/

/-- Outcome of the admin inventory endpoints. -/
inductive InvOpResult where
  /-- Maps to 400, a validation failure (bad or absent quantity, duplicate inventory) -/
  | badRequest
  /-- Maps to 404, product or inventory not found -/
  | notFound
  /-- Success with the record -/
  | ok (i : InventoryRec)
  deriving Repr, DecidableEq

/-- Controller `updateInventoryQuantity` (PATCH /inventory/product/:productId): reject a
negative quantity, require the product, then `findOneAndUpdate` the
inventory record for that product. -/
def updateInventoryQuantity (s : Store) (pid : Nat) (q : Int) :
    InvOpResult × Store :=
  if q < 0 then (.badRequest, s)             -- "Quantity cannot be negative"
  else
    match findProduct s pid with
    | none => (.notFound, s)                  -- "Product not found"
    | some _ =>
      match findInventory s pid with
      | none => (.notFound, s)                -- "Inventory not found for this product"
      | some i =>
          let i' := { i with quantity := q }
          let invs' := updateFirst (fun x => x.productId == pid)
            (fun x => { x with quantity := q }) s.inventories
          (.ok i', { s with inventories := invs' })

/-- Controller `createInventory` (POST /inventory): require the product, reject a
duplicate record, then save; the Mongoose schema (`min: 0`) rejects a
negative quantity at `save`. -/
def createInventory (s : Store) (pid : Nat) (q : Int) :
    InvOpResult × Store :=
  match findProduct s pid with
  | none => (.notFound, s)
  | some _ =>
    match findInventory s pid with
    | some _ => (.badRequest, s)     -- "Inventory already exists for this product"
    | none =>
      if q < 0 then (.badRequest, s) -- schema validation `min: 0` fails the save
      else
        let rec' : InventoryRec := { productId := pid, quantity := q }
        (.ok rec', { s with inventories := s.inventories ++ [rec'] })

/-! ## Products controller (src/controllers/productsController.js) -/

/-- The updatable fields of PUT /products/:id (`req.body` applied by
`findByIdAndUpdate`); absent fields are left unchanged. -/
structure ProductUpdate where
  name : Option String
  price : Option Int
  category : Option String
  deriving Repr, DecidableEq

/-- Apply a partial update to a product document. -/
def applyProductUpdate (u : ProductUpdate) (p : Product) : Product :=
  { p with
    name := u.name.getD p.name,
    price := u.price.getD p.price,
    category := u.category.getD p.category }

/-- Outcome of `updateProduct`. -/
inductive ProductOpResult where
  | notFound
  | ok (p : Product)
  deriving Repr, DecidableEq

/-- Controller `updateProduct` (PUT /products/:id): `findByIdAndUpdate(id, req.body)`. -/
def updateProduct (s : Store) (pid : Nat) (u : ProductUpdate) :
    ProductOpResult × Store :=
  match findProduct s pid with
  | none => (.notFound, s)
  | some p =>
      let p' := applyProductUpdate u p
      let products' := updateFirst (fun x => x.id == pid)
        (applyProductUpdate u) s.products
      (.ok p', { s with products := products' })

/-! ## Operation alphabet

One constructor per state-mutating controller operation of the modelled
core, used to state reachability invariants ("no sequence of operations
drives a quantity below 0"). -/

/-- A single invocation of one of the modelled mutating endpoints. -/
inductive Op where
  | addToCart (u pid : Nat) (q : Int)
  | updateCartItem (u itemId : Nat) (q : Int)
  | removeFromCart (u itemId : Nat)
  | clearCart (u : Nat)
  | placeOrder (u : Nat)
  | updateOrderStatus (oid : Nat) (st : String)
  | updateInventoryQuantity (pid : Nat) (q : Int)
  | createInventory (pid : Nat) (q : Int)
  | updateProduct (pid : Nat) (upd : ProductUpdate)
  deriving Repr, DecidableEq

/-- The store reached after executing one operation (result discarded). -/
def applyOp (s : Store) : Op → Store
  | .addToCart u pid q => (addToCart s u pid q).2
  | .updateCartItem u itemId q => (updateCartItem s u itemId q).2
  | .removeFromCart u itemId => (removeFromCart s u itemId).2
  | .clearCart u => (clearCart s u).2
  | .placeOrder u => (createOrder s u).2
  | .updateOrderStatus oid st => (updateOrderStatus s oid st).2
  | .updateInventoryQuantity pid q => (updateInventoryQuantity s pid q).2
  | .createInventory pid q => (createInventory s pid q).2
  | .updateProduct pid upd => (updateProduct s pid upd).2

/-- The store reached after a sequence of operations. -/
def runOps (s : Store) (ops : List Op) : Store :=
  ops.foldl applyOp s

/-! ## Derived predicates and spec-side views -/

/-- The cart-quantity lower bound: every stored cart line has quantity ≥ 1
(the Cart schema itself does not enforce this; the controllers do). -/
abbrev CartQtyPos (s : Store) : Prop := ∀ l ∈ s.carts, 1 ≤ l.quantity

/-- The inventory invariant: every inventory record's quantity is ≥ 0. -/
abbrev InvNonNeg (s : Store) : Prop := ∀ i ∈ s.inventories, 0 ≤ i.quantity

/-- The surviving cart lines of user `u`, each paired with its still-existing
product, in cart-line order: the lines `createOrder` actually processes. -/
def survivors (s : Store) (u : Nat) : List (CartLine × Product) :=
  (cartLinesOf s u).filterMap
    (fun l => (findProduct s l.productId).map (fun p => (l, p)))

/-! ## Interleaved execution of the per-line order body

In the Node.js runtime every `await` inside `createOrder`'s loop is a yield
point, so two concurrent `createOrder` requests interleave at the granularity
of the data-store calls.  The body of one loop iteration is embedded as a
small thread: the inventory read (`Inventory.findOne`) and the later write
(`inventory.quantity -= q; inventory.save()`) are separate steps, and the
write stores the value computed from the thread's own earlier snapshot of the
document — exactly the read-then-write sequence of the source. -/

/-- Control state of one in-flight single-line `createOrder` body. -/
inductive OrderThreadState where
  /-- Before the `Inventory.findOne` read for its cart line. -/
  | ready (line : CartLine)
  /-- After a passing inventory check, holding the snapshot document, before
  the order insert and the `inventory.save()` write. -/
  | haveInv (line : CartLine) (p : Product) (inv : InventoryRec)
  /-- Request finished, order accepted. -/
  | done (o : OrderRec)
  /-- Request finished with the insufficient-stock failure. -/
  | stockFail (r : PlaceOrderResult)
  /-- Line skipped because the product was deleted. -/
  | skipped
  deriving Repr, DecidableEq

/-- One scheduler step of an in-flight order body. Finished threads do not
move. -/
def threadStep (s : Store) : OrderThreadState → Store × OrderThreadState
  | .ready line =>
      match findProduct s line.productId with
      | none => (s, .skipped)
      | some p =>
        match findInventory s p.id with
        | none => (s, .stockFail (.insufficientStock p.id 0 line.quantity))
        | some inv =>
          if inv.quantity < line.quantity then
            (s, .stockFail (.insufficientStock p.id inv.quantity line.quantity))
          else
            (s, .haveInv line p inv)
  | .haveInv line p inv =>
      let order : OrderRec :=
        { id := s.nextOrderId, userId := line.userId, productId := p.id,
          quantity := line.quantity, totalPrice := p.price * line.quantity,
          status := "pending" }
      let invs' := updateFirst (fun i => i.productId == p.id)
        (fun i => { i with quantity := inv.quantity - line.quantity })
        s.inventories
      ({ s with orders := s.orders ++ [order],
                nextOrderId := s.nextOrderId + 1,
                inventories := invs' },
       .done order)
  | t => (s, t)

/-- Run two concurrent order bodies under an explicit schedule: `true` steps
the first thread, `false` the second. -/
def runTwo (s : Store) (t1 t2 : OrderThreadState) :
    List Bool → Store × OrderThreadState × OrderThreadState
  | [] => (s, t1, t2)
  | true :: sch =>
      let r := threadStep s t1
      runTwo r.1 r.2 t2 sch
  | false :: sch =>
      let r := threadStep s t2
      runTwo r.1 t1 r.2 sch

/-! ## Concrete scenario stores -/

/-- Scenario of spec §8.6: products A (id 1, price 50) and B (id 2, price
30); inventory A = 5, B = 0; user 7's cart holds A×2 then B×1. -/
def storeTwoLines : Store :=
  { products := [⟨1, "A", 50, "clothing"⟩, ⟨2, "B", 30, "clothing"⟩],
    inventories := [⟨1, 5⟩, ⟨2, 0⟩],
    carts := [⟨10, 7, 1, 2⟩, ⟨11, 7, 2, 1⟩],
    orders := [], nextCartId := 12, nextOrderId := 100 }

/-- A store whose only cart line (user 7) references product 1, which no
longer exists in the catalog. -/
def storeStaleCart : Store :=
  { products := [],
    inventories := [⟨1, 5⟩],
    carts := [⟨10, 7, 1, 2⟩],
    orders := [], nextCartId := 12, nextOrderId := 100 }

/-- A store with one product (id 3, price 1999) at inventory 10 and one cart
line of user 7 requesting 3 units. -/
def storeOneLine : Store :=
  { products := [⟨3, "C", 1999, "clothing"⟩],
    inventories := [⟨3, 10⟩],
    carts := [⟨10, 7, 3, 3⟩],
    orders := [], nextCartId := 12, nextOrderId := 100 }

/-- A store with product 1 at inventory quantity 1, no cart lines (the race
threads carry their own lines). -/
def storeRace : Store :=
  { products := [⟨1, "A", 50, "clothing"⟩],
    inventories := [⟨1, 1⟩],
    carts := [], orders := [], nextCartId := 12, nextOrderId := 100 }

/-- An empty store. -/
def storeEmpty : Store :=
  { products := [], inventories := [], carts := [], orders := [],
    nextCartId := 0, nextOrderId := 0 }

/-- The surviving lines of an arbitrary item list against a product list
(generalisation of `survivors` used for loop induction). -/
def survivorsOf (prods : List Product) (items : List CartLine) :
    List (CartLine × Product) :=
  items.filterMap
    (fun l => (prods.find? (fun p => p.id == l.productId)).map (fun p => (l, p)))

/-- The outcome of the racing schedule: both single-line order bodies read
the inventory before either writes it. -/
def raceOutcome : Store × OrderThreadState × OrderThreadState :=
  runTwo storeRace (.ready ⟨10, 7, 1, 1⟩) (.ready ⟨11, 8, 1, 1⟩)
    [true, false, true, false]

/-! ## Helper lemmas about `updateFirst` -/

theorem mem_updateFirst {α : Type} {p : α → Bool} {f : α → α} :
    ∀ {xs : List α} {y : α}, y ∈ updateFirst p f xs →
      y ∈ xs ∨ ∃ x ∈ xs, y = f x := by
  intro xs
  induction xs with
  | nil => intro y hy; simp [updateFirst] at hy
  | cons x xs ih =>
    intro y hy
    by_cases hx : p x
    · simp [updateFirst, hx] at hy
      rcases hy with hy | hy
      · exact Or.inr ⟨x, by simp, hy⟩
      · exact Or.inl (List.mem_cons_of_mem _ hy)
    · simp [updateFirst, hx] at hy
      rcases hy with hy | hy
      · exact Or.inl (by simp [hy])
      · rcases ih hy with h | ⟨x', hx', he⟩
        · exact Or.inl (List.mem_cons_of_mem _ h)
        · exact Or.inr ⟨x', List.mem_cons_of_mem _ hx', he⟩

theorem find?_updateFirst_mem {α : Type} {p : α → Bool} {f : α → α} :
    ∀ {xs : List α} {a : α}, xs.find? p = some a →
      ∀ {y : α}, y ∈ updateFirst p f xs → y ∈ xs ∨ y = f a := by
  intro xs
  induction xs with
  | nil => intro a h; simp at h
  | cons x xs ih =>
    intro a h y hy
    by_cases hx : p x
    · rw [List.find?_cons_of_pos _ hx] at h
      injection h with h; subst h
      simp [updateFirst, hx] at hy
      rcases hy with hy | hy
      · exact Or.inr hy
      · exact Or.inl (List.mem_cons_of_mem _ hy)
    · rw [List.find?_cons_of_neg _ hx] at h
      simp [updateFirst, hx] at hy
      rcases hy with hy | hy
      · exact Or.inl (by simp [hy])
      · rcases ih h hy with h' | h'
        · exact Or.inl (List.mem_cons_of_mem _ h')
        · exact Or.inr h'

theorem forall₂_updateFirst {α : Type} (R : α → α → Prop) (p : α → Bool)
    (f : α → α) :
    ∀ (xs : List α), (∀ x ∈ xs, R x x) → (∀ x ∈ xs, p x = true → R x (f x)) →
      List.Forall₂ R xs (updateFirst p f xs) := by
  intro xs
  induction xs with
  | nil => intro _ _; constructor
  | cons x xs ih =>
    intro hrefl hf
    by_cases hx : p x
    · simp only [updateFirst, hx, if_pos]
      exact List.Forall₂.cons (hf x (by simp) hx)
        ((List.forall₂_same).mpr (fun y hy => hrefl y (List.mem_cons_of_mem _ hy)))
    · simp only [updateFirst, hx, if_neg, Bool.false_eq_true, not_false_iff]
      exact List.Forall₂.cons (hrefl x (by simp))
        (ih (fun y hy => hrefl y (List.mem_cons_of_mem _ hy))
            (fun y hy hp => hf y (List.mem_cons_of_mem _ hy) hp))

/-! ## C3: empty cart -/

/-- C3: for every user whose cart contains no lines, `createOrder` fails
with the empty-cart error and leaves the store untouched (zero orders
created, zero inventory mutations). -/
theorem claim_C3_emptyCart (s : Store) (u : Nat) (h : cartLinesOf s u = []) :
    createOrder s u = (.emptyCart, s) := by
  simp [createOrder, h]

/-- Witness for C3 at the empty store. -/
theorem claim_C3_emptyCart_witness :
    createOrder storeEmpty 7 = (.emptyCart, storeEmpty) :=
  claim_C3_emptyCart storeEmpty 7 rfl

/-! ## C9: clearCart -/

/-- C9: `clearCart` deletes exactly the lines of the given user and answers
with their count; it is idempotent — a second consecutive call returns 0,
and clearing an already-empty cart succeeds with 0 rather than an error. -/
theorem claim_C9_clearCart (s : Store) (u : Nat) :
    clearCart s u = ((cartLinesOf s u).length,
      { s with carts := s.carts.filter (fun l => l.userId != u) }) ∧
    (clearCart (clearCart s u).2 u).1 = 0 ∧
    (cartLinesOf s u = [] → clearCart s u = (0, s)) := by
  refine ⟨rfl, ?_, ?_⟩
  · simp [clearCart, List.filter_filter]
  · intro h
    rw [show cartLinesOf s u = s.carts.filter (fun l => l.userId == u) from rfl] at h
    have hall : ∀ l ∈ s.carts, ¬(l.userId = u) := by
      intro l hl hlu
      have hmem : l ∈ s.carts.filter (fun l => l.userId == u) := by
        rw [List.mem_filter]; exact ⟨hl, by simp [hlu]⟩
      rw [h] at hmem
      exact absurd hmem (List.not_mem_nil l)
    have hkeep : s.carts.filter (fun l => l.userId != u) = s.carts := by
      apply List.filter_eq_self.mpr
      intro l hl
      simpa using hall l hl
    simp [clearCart, h, hkeep]

/-- Witness for C9 at the empty store. -/
theorem claim_C9_clearCart_witness :
    clearCart storeEmpty 7 = (0, storeEmpty) :=
  (claim_C9_clearCart storeEmpty 7).2.2 rfl

/-! ## C7: price freeze -/

/-- C7: `updateProduct` (which is how a product's price or any other field
is changed) leaves every existing order — hence its `totalPrice` and every
other field — unchanged. -/
theorem claim_C7_priceFreeze (s : Store) (pid : Nat) (upd : ProductUpdate) :
    (updateProduct s pid upd).2.orders = s.orders := by
  unfold updateProduct
  cases h : findProduct s pid <;> simp

/-! ## C1: the partial-debit defect of `createOrder` -/

/-- C1: in the spec §8.6 scenario (cart A×2 then B×1, inventory A=5, B=0)
the call does fail with the insufficient-stock error for line B and leaves
the cart unchanged, but — contrary to the all-or-nothing claim — an order
for line A has been created and inventory A has already been decremented
from 5 to 3. -/
theorem claim_C1_partialDebit :
    (createOrder storeTwoLines 7).1 = .insufficientStock 2 0 1 ∧
    findInventory storeTwoLines 1 = some ⟨1, 5⟩ ∧
    findInventory (createOrder storeTwoLines 7).2 1 = some ⟨1, 3⟩ ∧
    (createOrder storeTwoLines 7).2.orders =
      [⟨100, 7, 1, 2, 100, "pending"⟩] ∧
    storeTwoLines.orders = [] ∧
    (createOrder storeTwoLines 7).2.carts = storeTwoLines.carts := by
  decide

/-! ## C2: the read-then-write inventory race -/

/-- C2: with product 1 at inventory quantity 1, two concurrent single-line
order bodies each requesting 1 unit can interleave (both `findOne` reads
before either `save` write, a real schedule of the async loop) so that both
are accepted: the accepted orders total 2 units against an available 1, and
neither invocation receives the insufficient-stock failure — the per-line
check-and-decrement of the code is a separate read followed by a write, not
an atomic conditional update. -/
theorem claim_C2_oversell :
    findInventory storeRace 1 = some ⟨1, 1⟩ ∧
    raceOutcome.2.1 = .done ⟨100, 7, 1, 1, 50, "pending"⟩ ∧
    raceOutcome.2.2 = .done ⟨101, 8, 1, 1, 50, "pending"⟩ ∧
    (raceOutcome.1.orders.map (fun o => o.quantity)).sum = 2 := by
  decide

/-! ## C4: a cart of only stale lines -/

/-- C4 counterexample: at `storeStaleCart` the user's cart is non-empty and
every line's product is gone, yet `createOrder` does NOT degenerate to the
empty-cart failure: it reports success with an empty order sequence and
clears the cart. -/
theorem claim_C4_counterexample :
    storeStaleCart.carts ≠ [] ∧
    (∀ l ∈ storeStaleCart.carts,
      findProduct storeStaleCart l.productId = none) ∧
    (createOrder storeStaleCart 7).1 = .success [] ∧
    (createOrder storeStaleCart 7).1 ≠ .emptyCart ∧
    (createOrder storeStaleCart 7).2.carts = [] := by
  decide

/-- Loop lemma for C4: when every remaining item's product is gone, the loop
skips them all and ends in the success epilogue, clearing the cart. -/
theorem processCartItems_allStale (u : Nat) :
    ∀ (items : List CartLine) (acc : List OrderRec) (s : Store),
      (∀ l ∈ items, findProduct s l.productId = none) →
      processCartItems u s items acc =
        (.success acc.reverse,
         { s with carts := s.carts.filter (fun l => l.userId != u) }) := by
  intro items
  induction items with
  | nil => intro acc s _; rfl
  | cons item rest ih =>
    intro acc s h
    have h1 : findProduct s item.productId = none := h item (by simp)
    have hrest : ∀ l ∈ rest, findProduct s l.productId = none :=
      fun l hl => h l (List.mem_cons_of_mem _ hl)
    simp only [processCartItems, h1]
    exact ih acc s hrest

/-- C4 amended: for every user whose cart is non-empty but every cart line
references a product that no longer exists, `createOrder` silently skips
each line (no order created, no inventory touched) and then reports success
with an empty order sequence, clearing the user's cart — it does not fail
with the empty-cart error. -/
theorem claim_C4_staleCartSuccess (s : Store) (u : Nat)
    (h1 : cartLinesOf s u ≠ [])
    (h2 : ∀ l ∈ cartLinesOf s u, findProduct s l.productId = none) :
    createOrder s u =
      (.success [],
       { s with carts := s.carts.filter (fun l => l.userId != u) }) := by
  have hne : (cartLinesOf s u).isEmpty = false := by
    cases hc : cartLinesOf s u
    · exact absurd hc h1
    · rfl
  simp only [createOrder, hne, Bool.false_eq_true, if_false]
  exact processCartItems_allStale u (cartLinesOf s u) [] s h2

/-- Witness for the amended C4 at `storeStaleCart`. -/
theorem claim_C4_staleCartSuccess_witness :
    createOrder storeStaleCart 7 =
      (.success [],
       { storeStaleCart with
           carts := storeStaleCart.carts.filter (fun l => l.userId != 7) }) :=
  claim_C4_staleCartSuccess storeStaleCart 7 (by decide) (by decide)

/-! ## C8: updateOrderStatus -/

/-- C8: a status outside the five-value enumeration is rejected with no side
effect on any record; a status inside it returns not-found when no order has
the id, and otherwise mutates only the status field of the matched order —
products, inventories, carts are untouched and every order keeps its userId,
productId, quantity and totalPrice. -/
theorem claim_C8_updateOrderStatus (s : Store) (oid : Nat) (st : String) :
    (st ∉ validStatuses → updateOrderStatus s oid st = (.invalidStatus, s)) ∧
    ((st ∈ validStatuses ∧ ∀ o ∈ s.orders, o.id ≠ oid) →
      updateOrderStatus s oid st = (.notFound, s)) ∧
    (∀ o, st ∈ validStatuses → s.orders.find? (fun x => x.id == oid) = some o →
      (updateOrderStatus s oid st).1 = .ok { o with status := st } ∧
      (updateOrderStatus s oid st).2.products = s.products ∧
      (updateOrderStatus s oid st).2.inventories = s.inventories ∧
      (updateOrderStatus s oid st).2.carts = s.carts ∧
      List.Forall₂ (fun old new =>
          new.userId = old.userId ∧ new.productId = old.productId ∧
          new.quantity = old.quantity ∧ new.totalPrice = old.totalPrice ∧
          (new = old ∨ (old.id = oid ∧ new = { old with status := st })))
        s.orders (updateOrderStatus s oid st).2.orders) := by
  refine ⟨?_, ?_, ?_⟩
  · intro h
    have hc : validStatuses.contains st = false := by
      simpa using h
    simp [updateOrderStatus, hc]
    intro hin
    exact absurd hin h
  · rintro ⟨hin, hnone⟩
    have hfind : s.orders.find? (fun x => x.id == oid) = none := by
      apply List.find?_eq_none.mpr
      intro o ho
      simpa using hnone o ho
    simp [updateOrderStatus, hfind, hin]
  · intro o hin hfind
    have hc : validStatuses.contains st = true := by simpa using hin
    refine ⟨?_, ?_, ?_, ?_, ?_⟩ <;>
      simp only [updateOrderStatus, hc, Bool.not_true, Bool.false_eq_true,
        if_false, hfind]
    · apply forall₂_updateFirst
      · intro x _
        exact ⟨rfl, rfl, rfl, rfl, Or.inl rfl⟩
      · intro x _ hx
        exact ⟨rfl, rfl, rfl, rfl, Or.inr ⟨by simpa using hx, rfl⟩⟩

/-- Witness for C8: the out-of-enumeration branch at the empty store. -/
theorem claim_C8_updateOrderStatus_witness :
    updateOrderStatus storeEmpty 100 "bogus" = (.invalidStatus, storeEmpty) :=
  (claim_C8_updateOrderStatus storeEmpty 100 "bogus").1 (by decide)

/-! ## C5: shape of a fully successful placement -/

/-- Loop lemma for C5: a success outcome of the per-line loop appends, after
the accumulator, exactly one order per surviving remaining line, in order,
with the fields computed from that line and its product. -/
theorem processCartItems_success_spec (u : Nat) :
    ∀ (items : List CartLine) (acc : List OrderRec) (s : Store)
      (os : List OrderRec) (s' : Store),
      processCartItems u s items acc = (.success os, s') →
      ∃ os', os = acc.reverse ++ os' ∧
        s'.orders = s.orders ++ os' ∧
        List.Forall₂ (fun lp o =>
            o.userId = u ∧ o.productId = lp.2.id ∧
            o.quantity = lp.1.quantity ∧
            o.totalPrice = lp.2.price * lp.1.quantity ∧ o.status = "pending")
          (survivorsOf s.products items) os' := by
  intro items
  induction items with
  | nil =>
    intro acc s os s' h
    simp only [processCartItems, Prod.mk.injEq,
      PlaceOrderResult.success.injEq] at h
    obtain ⟨h1, h2⟩ := h
    subst h2
    exact ⟨[], by simp [h1], by simp, by simp [survivorsOf]⟩
  | cons item rest ih =>
    intro acc s os s' h
    cases hfp : findProduct s item.productId with
    | none =>
      rw [processCartItems, hfp] at h
      obtain ⟨os', h1, h2, h3⟩ := ih acc s os s' h
      refine ⟨os', h1, h2, ?_⟩
      have hfp' : s.products.find? (fun p => p.id == item.productId) = none := hfp
      simpa [survivorsOf, List.filterMap_cons, hfp'] using h3
    | some p =>
      cases hfi : findInventory s p.id with
      | none => simp [processCartItems, hfp, hfi] at h
      | some inv =>
        by_cases hq : inv.quantity < item.quantity
        · simp [processCartItems, hfp, hfi, hq] at h
        · simp only [processCartItems, hfp, hfi, hq, if_false] at h
          obtain ⟨os₁, h1, h2, h3⟩ := ih _ _ os s' h
          refine ⟨(OrderRec.mk s.nextOrderId u p.id item.quantity
            (p.price * item.quantity) "pending") :: os₁, ?_, ?_, ?_⟩
          · simpa [List.append_assoc] using h1
          · simpa [List.append_assoc] using h2
          · have hfp' : s.products.find? (fun p => p.id == item.productId) =
                some p := hfp
            have hpid : p.id = item.productId := by
              have := List.find?_some hfp'
              simpa using this
            simp only [survivorsOf, List.filterMap_cons, hfp', Option.map_some]
            exact List.Forall₂.cons ⟨rfl, rfl, rfl, rfl, rfl⟩ (by simpa using h3)

/-- C5: a fully successful `createOrder` returns exactly the created orders,
appended to the order store in creation order, one per surviving cart line
and in cart-line order, each carrying the requesting user, the line's
product and quantity, totalPrice = price × quantity, and status pending. -/
theorem claim_C5_successOrders (s : Store) (u : Nat) (os : List OrderRec)
    (s' : Store) (h : createOrder s u = (.success os, s')) :
    s'.orders = s.orders ++ os ∧
    List.Forall₂ (fun lp o =>
        o.userId = u ∧ o.productId = lp.2.id ∧ o.quantity = lp.1.quantity ∧
        o.totalPrice = lp.2.price * lp.1.quantity ∧ o.status = "pending")
      (survivors s u) os := by
  by_cases hc : (cartLinesOf s u).isEmpty = true
  · simp [createOrder, hc] at h
  · rw [Bool.not_eq_true] at hc
    simp only [createOrder, hc, Bool.false_eq_true, if_false] at h
    obtain ⟨os', h1, h2, h3⟩ :=
      processCartItems_success_spec u (cartLinesOf s u) [] s os s' h
    simp only [List.reverse_nil, List.nil_append] at h1
    subst h1
    exact ⟨h2, h3⟩

/-- Witness for C5 at `storeOneLine` (spec §8.7 scenario: price 1999,
quantity 3, totalPrice 5997, inventory 10 → 7). -/
theorem claim_C5_successOrders_witness :
    (Store.mk [⟨3, "C", 1999, "clothing"⟩] [⟨3, 7⟩] []
        [⟨100, 7, 3, 3, 5997, "pending"⟩] 12 101).orders =
      storeOneLine.orders ++ [⟨100, 7, 3, 3, 5997, "pending"⟩] ∧
    List.Forall₂ (fun (lp : CartLine × Product) (o : OrderRec) =>
        o.userId = 7 ∧ o.productId = lp.2.id ∧ o.quantity = lp.1.quantity ∧
        o.totalPrice = lp.2.price * lp.1.quantity ∧ o.status = "pending")
      (survivors storeOneLine 7) [⟨100, 7, 3, 3, 5997, "pending"⟩] :=
  claim_C5_successOrders storeOneLine 7 [⟨100, 7, 3, 3, 5997, "pending"⟩]
    (Store.mk [⟨3, "C", 1999, "clothing"⟩] [⟨3, 7⟩] []
      [⟨100, 7, 3, 3, 5997, "pending"⟩] 12 101) (by decide)

/-! ## Frame lemmas: which collections each endpoint can touch -/

theorem addToCart_inventories (s : Store) (u pid : Nat) (q : Int) :
    (addToCart s u pid q).2.inventories = s.inventories := by
  unfold addToCart
  (repeat' split) <;> rfl

theorem updateCartItem_inventories (s : Store) (u itemId : Nat) (q : Int) :
    (updateCartItem s u itemId q).2.inventories = s.inventories := by
  unfold updateCartItem
  (repeat' split) <;> rfl

theorem removeFromCart_inventories (s : Store) (u itemId : Nat) :
    (removeFromCart s u itemId).2.inventories = s.inventories := by
  unfold removeFromCart
  (repeat' split) <;> rfl

theorem clearCart_inventories (s : Store) (u : Nat) :
    (clearCart s u).2.inventories = s.inventories := rfl

theorem updateOrderStatus_inventories (s : Store) (oid : Nat) (st : String) :
    (updateOrderStatus s oid st).2.inventories = s.inventories := by
  unfold updateOrderStatus
  (repeat' split) <;> rfl

theorem updateProduct_inventories (s : Store) (pid : Nat)
    (upd : ProductUpdate) :
    (updateProduct s pid upd).2.inventories = s.inventories := by
  unfold updateProduct
  (repeat' split) <;> rfl

theorem updateOrderStatus_carts (s : Store) (oid : Nat) (st : String) :
    (updateOrderStatus s oid st).2.carts = s.carts := by
  unfold updateOrderStatus
  (repeat' split) <;> rfl

theorem updateInventoryQuantity_carts (s : Store) (pid : Nat) (q : Int) :
    (updateInventoryQuantity s pid q).2.carts = s.carts := by
  unfold updateInventoryQuantity
  (repeat' split) <;> rfl

theorem createInventory_carts (s : Store) (pid : Nat) (q : Int) :
    (createInventory s pid q).2.carts = s.carts := by
  unfold createInventory
  (repeat' split) <;> rfl

theorem updateProduct_carts (s : Store) (pid : Nat) (upd : ProductUpdate) :
    (updateProduct s pid upd).2.carts = s.carts := by
  unfold updateProduct
  (repeat' split) <;> rfl

/-- The loop of `createOrder` either leaves the cart collection unchanged
(any failure exit) or ends by filtering out the user's lines (success). -/
theorem processCartItems_carts (u : Nat) :
    ∀ (items : List CartLine) (acc : List OrderRec) (s : Store),
      (processCartItems u s items acc).2.carts = s.carts ∨
      (processCartItems u s items acc).2.carts =
        s.carts.filter (fun l => l.userId != u) := by
  intro items
  induction items with
  | nil => intro acc s; exact Or.inr rfl
  | cons item rest ih =>
    intro acc s
    cases hfp : findProduct s item.productId with
    | none =>
      rw [processCartItems, hfp]
      exact ih acc s
    | some p =>
      cases hfi : findInventory s p.id with
      | none => simp [processCartItems, hfp, hfi]
      | some inv =>
        by_cases hq : inv.quantity < item.quantity
        · simp [processCartItems, hfp, hfi, hq]
        · simp only [processCartItems, hfp, hfi, hq, if_false]
          simpa using ih _ _

/-! ## C6: inventory non-negativity -/

/-- The loop of `createOrder` preserves inventory non-negativity: the one
write decrements the first matching record — the very record the passing
check was made on — by at most its current quantity. -/
theorem processCartItems_invNonNeg (u : Nat) :
    ∀ (items : List CartLine) (acc : List OrderRec) (s : Store),
      InvNonNeg s → InvNonNeg (processCartItems u s items acc).2 := by
  intro items
  induction items with
  | nil => intro acc s h; exact h
  | cons item rest ih =>
    intro acc s h
    cases hfp : findProduct s item.productId with
    | none =>
      rw [processCartItems, hfp]
      exact ih acc s h
    | some p =>
      cases hfi : findInventory s p.id with
      | none => simpa [processCartItems, hfp, hfi] using h
      | some inv =>
        by_cases hq : inv.quantity < item.quantity
        · simpa [processCartItems, hfp, hfi, hq] using h
        · simp only [processCartItems, hfp, hfi, hq, if_false]
          apply ih
          intro i hi
          rcases find?_updateFirst_mem hfi hi with hmem | heq
          · exact h i hmem
          · subst heq
            simp only []
            have hle : item.quantity ≤ inv.quantity := le_of_not_lt hq
            have h0 : (0 : Int) ≤ inv.quantity - item.quantity :=
              sub_nonneg.mpr hle
            simpa using h0

/-- One endpoint invocation preserves inventory non-negativity. -/
theorem invNonNeg_applyOp (s : Store) (op : Op) (h : InvNonNeg s) :
    InvNonNeg (applyOp s op) := by
  cases op with
  | addToCart u pid q =>
    intro i hi; rw [applyOp, addToCart_inventories] at hi; exact h i hi
  | updateCartItem u itemId q =>
    intro i hi; rw [applyOp, updateCartItem_inventories] at hi; exact h i hi
  | removeFromCart u itemId =>
    intro i hi; rw [applyOp, removeFromCart_inventories] at hi; exact h i hi
  | clearCart u =>
    intro i hi; rw [applyOp, clearCart_inventories] at hi; exact h i hi
  | placeOrder u =>
    rw [applyOp]
    unfold createOrder
    by_cases hc : (cartLinesOf s u).isEmpty = true
    · simpa [hc] using h
    · rw [Bool.not_eq_true] at hc
      simp only [hc, Bool.false_eq_true, if_false]
      exact processCartItems_invNonNeg u _ [] s h
  | updateOrderStatus oid st =>
    intro i hi; rw [applyOp, updateOrderStatus_inventories] at hi; exact h i hi
  | updateInventoryQuantity pid q =>
    rw [applyOp]
    unfold updateInventoryQuantity
    by_cases hq : q < 0
    · simpa [hq] using h
    · simp only [hq, if_false]
      cases hfp : findProduct s pid with
      | none => exact h
      | some p =>
        cases hfi : findInventory s pid with
        | none => simpa using h
        | some i0 =>
          simp only []
          intro i hi
          rcases find?_updateFirst_mem hfi hi with hmem | heq
          · exact h i hmem
          · subst heq
            simpa using le_of_not_lt hq
  | createInventory pid q =>
    rw [applyOp]
    unfold createInventory
    cases hfp : findProduct s pid with
    | none => exact h
    | some p =>
      cases hfi : findInventory s pid with
      | some i0 => simpa using h
      | none =>
        by_cases hq : q < 0
        · simpa [hq] using h
        · simp only [hq, if_false]
          intro i hi
          simp only [List.mem_append, List.mem_singleton] at hi
          rcases hi with hi | hi
          · exact h i hi
          · subst hi
            simpa using le_of_not_lt hq
  | updateProduct pid upd =>
    intro i hi; rw [applyOp, updateProduct_inventories] at hi; exact h i hi

/-- C6: the administrative quantity update rejects negative values with no
effect, and no reachable sequence of the modelled operations drives any
inventory quantity below 0: non-negativity of every inventory record is an
invariant of the whole operation alphabet, `placeOrder` included. -/
theorem claim_C6_invNonNeg (s : Store) (ops : List Op) (pid : Nat) (q : Int) :
    (q < 0 → updateInventoryQuantity s pid q = (.badRequest, s)) ∧
    (InvNonNeg s → InvNonNeg (runOps s ops)) := by
  constructor
  · intro hq
    simp [updateInventoryQuantity, hq]
  · intro h
    rw [runOps]
    induction ops generalizing s with
    | nil => exact h
    | cons op ops ih =>
      rw [List.foldl_cons]
      exact ih _ (invNonNeg_applyOp s op h)

/-- Witness for C6: a run over the §8.6 store through a placement, an
admin restock and a duplicate-create attempt. -/
theorem claim_C6_invNonNeg_witness :
    InvNonNeg (runOps storeTwoLines
      [.placeOrder 7, .updateInventoryQuantity 1 4, .createInventory 1 0]) :=
  (claim_C6_invNonNeg storeTwoLines
      [.placeOrder 7, .updateInventoryQuantity 1 4, .createInventory 1 0]
      1 4).2 (by decide)

/-! ## C10: cart-line quantity lower bound -/

/-- Preservation of the quantity lower bound by `addToCart`: the rejected
requests leave the store unchanged, a merge adds a positive quantity to a
positive one, and a fresh line stores the validated quantity itself. -/
theorem cartQtyPos_addToCart (s : Store) (u pid : Nat) (q : Int)
    (h : CartQtyPos s) : CartQtyPos (addToCart s u pid q).2 := by
  by_cases h0 : q == 0
  · simpa [addToCart, h0] using h
  · by_cases hq : q < 1
    · simpa [addToCart, h0, hq] using h
    · have hq1 : 1 ≤ q := not_lt.mp hq
      cases hfp : findProduct s pid with
      | none => simpa [addToCart, h0, hq, hfp] using h
      | some p =>
        cases hfind :
            s.carts.find? (fun l => l.userId == u && l.productId == pid) with
        | some l0 =>
          simp only [addToCart, h0, hq, hfp, hfind, if_false, Bool.false_eq_true]
          intro l hl
          rcases mem_updateFirst hl with hmem | ⟨x, hx, he⟩
          · exact h l hmem
          · subst he
            have hx1 := h x hx
            show 1 ≤ x.quantity + q
            omega
        | none =>
          simp only [addToCart, h0, hq, hfp, hfind, if_false, Bool.false_eq_true]
          intro l hl
          simp only [List.mem_append, List.mem_singleton] at hl
          rcases hl with hl | hl
          · exact h l hl
          · subst hl
            simpa using hq1

/-- Preservation of the quantity lower bound by `updateCartItem`. -/
theorem cartQtyPos_updateCartItem (s : Store) (u itemId : Nat) (q : Int)
    (h : CartQtyPos s) : CartQtyPos (updateCartItem s u itemId q).2 := by
  by_cases hq : q < 1
  · simpa [updateCartItem, hq] using h
  · have hq1 : 1 ≤ q := not_lt.mp hq
    cases hfind :
        s.carts.find? (fun l => l.id == itemId && l.userId == u) with
    | none => simpa [updateCartItem, hq, hfind] using h
    | some l0 =>
      simp only [updateCartItem, hq, hfind, if_false, Bool.false_eq_true]
      intro l hl
      rcases mem_updateFirst hl with hmem | ⟨x, hx, he⟩
      · exact h l hmem
      · subst he
        exact hq1

/-- One endpoint invocation preserves the cart-quantity lower bound. -/
theorem cartQtyPos_applyOp (s : Store) (op : Op) (h : CartQtyPos s) :
    CartQtyPos (applyOp s op) := by
  cases op with
  | addToCart u pid q => exact cartQtyPos_addToCart s u pid q h
  | updateCartItem u itemId q => exact cartQtyPos_updateCartItem s u itemId q h
  | removeFromCart u itemId =>
    rw [applyOp]
    unfold removeFromCart
    cases hfind :
        s.carts.find? (fun l => l.id == itemId && l.userId == u) with
    | none => exact h
    | some l0 =>
      intro l hl
      exact h l (List.mem_of_mem_erase hl)
  | clearCart u =>
    intro l hl
    exact h l (List.mem_filter.mp hl).1
  | placeOrder u =>
    rw [applyOp]
    unfold createOrder
    by_cases hc : (cartLinesOf s u).isEmpty = true
    · simpa [hc] using h
    · rw [Bool.not_eq_true] at hc
      simp only [hc, Bool.false_eq_true, if_false]
      intro l hl
      rcases processCartItems_carts u (cartLinesOf s u) [] s with hsame | hfilt
      · rw [hsame] at hl
        exact h l hl
      · rw [hfilt] at hl
        exact h l (List.mem_filter.mp hl).1
  | updateOrderStatus oid st =>
    intro l hl; rw [applyOp, updateOrderStatus_carts] at hl; exact h l hl
  | updateInventoryQuantity pid q =>
    intro l hl; rw [applyOp, updateInventoryQuantity_carts] at hl; exact h l hl
  | createInventory pid q =>
    intro l hl; rw [applyOp, createInventory_carts] at hl; exact h l hl
  | updateProduct pid upd =>
    intro l hl; rw [applyOp, updateProduct_carts] at hl; exact h l hl

/-- C10: `addToCart` and `updateCartItem` reject quantities below 1 with no
effect, and the quantity lower bound `CartQtyPos` is an invariant of every
sequence of the modelled operations — all reachable cart lines have
quantity ≥ 1 even though the Cart schema does not enforce it. -/
theorem claim_C10_cartQtyPos (s : Store) (ops : List Op)
    (u pid itemId : Nat) (q : Int) :
    (q < 1 → addToCart s u pid q = (.badRequest, s) ∧
      updateCartItem s u itemId q = (.badRequest, s)) ∧
    (CartQtyPos s → CartQtyPos (runOps s ops)) := by
  constructor
  · intro hq
    constructor
    · by_cases h0 : q == 0 <;> simp [addToCart, h0, hq]
    · simp [updateCartItem, hq]
  · intro h
    rw [runOps]
    induction ops generalizing s with
    | nil => exact h
    | cons op ops ih =>
      rw [List.foldl_cons]
      exact ih _ (cartQtyPos_applyOp s op h)

/-- Witness for C10: a run over the §8.6 store through an add, a cart
update, a placement and a clear. -/
theorem claim_C10_cartQtyPos_witness :
    CartQtyPos (runOps storeTwoLines
      [.addToCart 7 1 5, .updateCartItem 7 10 2, .placeOrder 9,
       .clearCart 7]) :=
  (claim_C10_cartQtyPos storeTwoLines
      [.addToCart 7 1 5, .updateCartItem 7 10 2, .placeOrder 9, .clearCart 7]
      7 1 10 2).2 (by decide)
